import Mathlib

/-!
# excel-search-mcp — verification of the spec's claims against the source

Shallow embedding of the Python sources of `excel-search-mcp`
(`src/config_manager.py`, `src/file_scanner.py`, `src/excel_processor.py`,
`src/server.py`) and proofs settling the spec's claims about them.

Modelling conventions:
* A filesystem path is its list of segments (`List Seg`), already made
  absolute; `pathlib.Path.resolve()` over a symlink-free filesystem is
  `resolveSegs`, which folds away `.` and `..` segments.
* The filesystem visible to the process is a finite tree (`FsTree`);
  spreadsheet parsing (pandas / openpyxl) is the external collaborator the
  spec leaves unspecified, so a file node optionally carries the parsed
  `Workbook` the collaborator would return, and a `FileMeta.readable` flag
  models whether `stat()` succeeds.
* Python dict envelopes become inductive result types whose constructors
  carry exactly the fields of the corresponding dict literal in the source;
  a `keys` function lists the literal dict keys so that the presence or
  absence of a field (for example `truncated`) is expressible.
-/

namespace ExcelSearch

/-- A path segment (one component of an absolute path). -/
abbrev Seg := String

/-- One step of `pathlib.Path.resolve()` on an absolute, symlink-free path:
`.` is dropped, `..` removes the last accumulated segment (staying at the
root when there is none), anything else is appended. -/
def resolveStep (acc : List Seg) (s : Seg) : List Seg :=
  if s = "." then acc
  else if s = ".." then acc.dropLast
  else acc ++ [s]

/-- `pathlib.Path.resolve()` on an absolute path over a symlink-free
filesystem: canonicalise the segment list. -/
def resolveSegs (p : List Seg) : List Seg :=
  p.foldl resolveStep []

/-- Segment-wise prefix test: `segPrefix a b` is true iff the segments of
`a` are a leading run of the segments of `b`.  This is the condition under
which Python's `PurePath.relative_to` succeeds. -/
def segPrefix : List Seg → List Seg → Bool
  | [], _ => true
  | _ :: _, [] => false
  | a :: as, b :: bs => a == b && segPrefix as bs

/-- The configuration surface of `ConfigManager` (src/config_manager.py):
the work directory plus the excel-related getters, with the source's
default values. -/
structure Config where
  work_directory : List Seg
  supported_extensions : List String := [".xlsx", ".xls", ".xlsm", ".xlsb"]
  max_file_size_mb : Nat := 100
  max_files_per_search : Nat := 1000
  recursive_search : Bool := true

/-- `ConfigManager.is_path_within_work_directory`
(src/config_manager.py, lines 83–103): resolve the candidate and the work
directory; return `True` when they are equal, otherwise return whether
`target.relative_to(work_dir)` succeeds, i.e. whether the work directory's
segments lead the target's.  (The `except` branch returning `False` cannot
fire in the pure model.) -/
def is_path_within_work_directory (cfg : Config) (path : List Seg) : Bool :=
  let target := resolveSegs path
  let work := resolveSegs cfg.work_directory
  if target = work then true
  else segPrefix work target

/-- The spec's path policy, stated from the spec's words (spec.md §4.1, §8):
ALLOW iff the canonical form of the candidate equals the WorkRoot or is a
descendant of it on path-segment boundaries. -/
def specPathAllow (cfg : Config) (path : List Seg) : Prop :=
  resolveSegs path = resolveSegs cfg.work_directory ∨
    ∃ rest, rest ≠ [] ∧ resolveSegs path = resolveSegs cfg.work_directory ++ rest

/-- A concrete configuration whose work root is `/work`. -/
def workCfg : Config := { work_directory := ["work"] }

/-- `/work/sub/../a.xlsx`: traverses `..` but resolves back inside the root. -/
def dotDotPath : List Seg := ["work", "sub", "..", "a.xlsx"]

/-- `/work2/b.xlsx`: a sibling whose name has the root as a raw string prefix. -/
def siblingPath : List Seg := ["work2", "b.xlsx"]

/-! ## Filesystem and workbook model -/

/-- One worksheet as the tabular collaborator (pandas) presents it: the
column labels (`df.columns`), the dtype string of each column, and the data
rows (`df.values`), cells already stringified by the collaborator. -/
structure Worksheet where
  name : String
  headers : List String
  dtypes : List String
  rows : List (List String)
deriving Repr, DecidableEq

/-- A parsed workbook: its worksheets in file order. -/
structure Workbook where
  sheets : List Worksheet
deriving Repr, DecidableEq

/-- Filesystem metadata of a file node; `readable = false` models a
`stat()` call that raises `OSError`/`PermissionError`, with `oserror` the
exception's message. -/
structure FileMeta where
  size : Nat
  mtime : String
  ctime : String
  readable : Bool := true
  oserror : String := ""
deriving Repr, DecidableEq

/-- The filesystem visible to the process: a finite tree.  A file node
carries its metadata and, when the spreadsheet collaborator can parse it,
the parsed workbook. -/
inductive FsTree where
  | file (meta : FileMeta) (wb : Option Workbook)
  | dir (entries : List (String × FsTree))

/-- Look up a name among a directory's entries (the OS name lookup). -/
def findEntry (name : String) : List (String × FsTree) → Option FsTree
  | [] => none
  | (n, t) :: rest => if n = name then some t else findEntry name rest

/-- Walk a canonical path down a tree (structural on the path). -/
def lookupSegs : List Seg → FsTree → Option FsTree
  | [], t => some t
  | _ :: _, FsTree.file _ _ => none
  | s :: rest, FsTree.dir es =>
    match findEntry s es with
    | none => none
    | some t => lookupSegs rest t

/-- Walk a canonical path down the tree. -/
def lookupTree (t : FsTree) (p : List Seg) : Option FsTree := lookupSegs p t

/-- The entries of the directory at a canonical path (empty if the path is
not a directory; callers only use it after validation). -/
def lookupDirEntries (root : FsTree) (p : List Seg) : List (String × FsTree) :=
  match lookupTree root p with
  | some (FsTree.dir es) => es
  | _ => []

/-- The last segment of a path: `PurePath.name`. -/
def baseName (p : List Seg) : String := p.getLastD ""

/-- Render a path the way error messages interpolate it. -/
def showPath (p : List Seg) : String := "/" ++ String.intercalate "/" p

/-- `str.lower()` restricted to ASCII, as a structural map over the
characters. -/
def lowerStr (s : String) : String := String.mk (s.data.map Char.toLower)

/-- `PurePath.suffix`: the extension from the last dot on, empty when the
name has no dot, starts with its only dot, or ends with the dot. -/
def pathSuffix (name : String) : String :=
  let cs := name.data
  let after := (cs.reverse.takeWhile (fun c => c ≠ '.')).reverse
  if after.length = cs.length then ""
  else
    let i := cs.length - 1 - after.length
    if 0 < i ∧ i < cs.length - 1 then String.mk ('.' :: after) else ""

/-- `FileScanner.is_excel_file` (src/file_scanner.py 27–29): the lowercased
suffix is among the configured extensions. -/
def is_excel_file (cfg : Config) (name : String) : Bool :=
  cfg.supported_extensions.contains (lowerStr (pathSuffix name))

/-! ## FileScanner (src/file_scanner.py) -/

/-- A file entry of a scan result, with the literal fields of the dicts
built by `FileScanner.get_file_metadata`. -/
structure FileDescriptor where
  file_path : List Seg
  file_name : String
  file_size : Nat
  modified_time : Option String
  created_time : Option String
  extension : String
  error : Option String
deriving Repr, DecidableEq

/-- `FileScanner.get_file_metadata` (src/file_scanner.py 79–102): on a
successful `stat()`, the full metadata; on `OSError`/`PermissionError`, a
degraded entry with size 0, null timestamps and the exception message —
the scan is not aborted and no entry is dropped. -/
def get_file_metadata (path : List Seg) (meta : FileMeta) : FileDescriptor :=
  let name := baseName path
  if meta.readable then
    { file_path := path, file_name := name, file_size := meta.size,
      modified_time := some (meta.mtime ++ "Z"),
      created_time := some (meta.ctime ++ "Z"),
      extension := lowerStr (pathSuffix name), error := none }
  else
    { file_path := path, file_name := name, file_size := 0,
      modified_time := none, created_time := none,
      extension := lowerStr (pathSuffix name), error := some meta.oserror }

/-- A failed validation: the `error`/`error_code` fields of the dicts built
by `validate_directory_path` / `validate_file_path`. -/
structure ValidationError where
  error : String
  error_code : String
  work_directory : Option (List Seg) := none
deriving Repr, DecidableEq

/-- `FileScanner.validate_directory_path` (src/file_scanner.py 35–77):
existence, then directory-ness, then the work-directory policy; on success
the resolved directory path. -/
def validate_directory_path (cfg : Config) (root : FsTree) (p : List Seg) :
    Except ValidationError (List Seg) :=
  match lookupTree root (resolveSegs p) with
  | none =>
    .error { error := "Directory does not exist: " ++ showPath p,
             error_code := "DIRECTORY_NOT_FOUND" }
  | some (FsTree.file _ _) =>
    .error { error := "Path is not a directory: " ++ showPath p,
             error_code := "NOT_A_DIRECTORY" }
  | some (FsTree.dir _) =>
    if is_path_within_work_directory cfg p then .ok (resolveSegs p)
    else
      .error { error := "Directory access denied: " ++ showPath p ++
                 ". Work directory: " ++ showPath cfg.work_directory,
               error_code := "ACCESS_DENIED",
               work_directory := some cfg.work_directory }

mutual
/-- The directories pathlib's `**` wildcard expands to, in source order:
the start directory first, then recursively each subdirectory. -/
def dirsUnder (base : List Seg) : FsTree → List (List Seg × List (String × FsTree))
  | FsTree.file _ _ => []
  | FsTree.dir es => (base, es) :: dirsUnderList base es

/-- `dirsUnder` mapped over a directory's entries, in order. -/
def dirsUnderList (base : List Seg) :
    List (String × FsTree) → List (List Seg × List (String × FsTree))
  | [] => []
  | (n, t) :: rest => dirsUnder (base ++ [n]) t ++ dirsUnderList base rest
end

/-- `directory.glob("*")`: the immediate entries with their absolute paths. -/
def globFlat (base : List Seg) (es : List (String × FsTree)) : List (List Seg × FsTree) :=
  es.map (fun e => (base ++ [e.1], e.2))

/-- `directory.glob("**/*")`: the immediate entries of every directory in
the `**` expansion, in expansion order. -/
def globRec (base : List Seg) (es : List (String × FsTree)) : List (List Seg × FsTree) :=
  ((dirsUnder base (FsTree.dir es)).map (fun d => globFlat d.1 d.2)).flatten

/-- The Python truthiness test `max_files and len(excel_files) >= max_files`
(src/file_scanner.py 160): `None` and `0` are falsy, so neither imposes a
cap. -/
def capReached (max_files : Option Nat) (n : Nat) : Bool :=
  match max_files with
  | none => false
  | some k => if k = 0 then false else decide (n ≥ k)

/-- The scan loop of `FileScanner.scan_directory` (src/file_scanner.py
156–167): visit the glob entries in order, counting every entry scanned;
break once the cap is reached; collect metadata for regular files with a
supported extension. -/
def scanLoop (cfg : Config) (max_files : Option Nat) :
    List (List Seg × FsTree) → List FileDescriptor → Nat → List FileDescriptor × Nat
  | [], acc, scanned => (acc, scanned)
  | (p, t) :: rest, acc, scanned =>
    if capReached max_files acc.length then (acc, scanned + 1)
    else
      match t with
      | FsTree.file m _ =>
        if is_excel_file cfg (baseName p) then
          scanLoop cfg max_files rest (acc ++ [get_file_metadata p m]) (scanned + 1)
        else scanLoop cfg max_files rest acc (scanned + 1)
      | FsTree.dir _ => scanLoop cfg max_files rest acc (scanned + 1)

/-- The success payload of `scan_directory`, with the literal fields of the
dict at src/file_scanner.py 173–180. -/
structure ScanOk where
  directory : List Seg
  total_files : Nat
  scanned_files : Nat
  files : List FileDescriptor
  supported_extensions : List String
deriving Repr, DecidableEq

/-- The envelope returned by `scan_directory`. -/
inductive ScanResult where
  | ok (r : ScanOk)
  | err (e : ValidationError) (directory : List Seg) (recursive : Bool)
deriving Repr, DecidableEq

/-- The literal keys of the dict `scan_directory` returns in each branch
(src/file_scanner.py 129–138 and 173–180). -/
def ScanResult.keys : ScanResult → List String
  | .ok _ =>
    ["success", "directory", "total_files", "scanned_files", "files",
     "supported_extensions"]
  | .err _ _ _ =>
    ["success", "error", "error_code", "directory", "recursive",
     "total_files", "files", "work_directory"]

/-- The `success` field of a scan envelope. -/
def ScanResult.success : ScanResult → Bool
  | .ok _ => true
  | .err _ _ _ => false

/-- The `files` field of a scan envelope (`[]` in the failure branch). -/
def ScanResult.filesOf : ScanResult → List FileDescriptor
  | .ok r => r.files
  | .err _ _ _ => []

/-- `FileScanner.scan_directory` (src/file_scanner.py 104–201): validate
the directory (failure is an immediate failure envelope, no enumeration),
then glob flatly or recursively and run the scan loop. -/
def scan_directory (cfg : Config) (root : FsTree) (p : List Seg)
    (recursive : Bool) (max_files : Option Nat) : ScanResult :=
  match validate_directory_path cfg root p with
  | .error e => .err e p recursive
  | .ok dirPath =>
    let es := lookupDirEntries root dirPath
    let entries := if recursive then globRec dirPath es else globFlat dirPath es
    let res := scanLoop cfg max_files entries [] 0
    .ok { directory := p, total_files := res.1.length, scanned_files := res.2,
          files := res.1, supported_extensions := cfg.supported_extensions }

/-! ## ExcelProcessor (src/excel_processor.py) -/

/-- One entry of the `worksheets` list built by
`ExcelProcessor.get_file_info` (src/excel_processor.py 135–143).  The
openpyxl view of a sheet is derived from the tabular view: `max_row` is the
header row plus the data rows, `max_column` is the number of columns. -/
structure WorksheetInfo where
  name : String
  index : Nat
  row_count : Nat
  column_count : Nat
  has_data : Bool
deriving Repr, DecidableEq

/-- The success payload of `get_file_info` (src/excel_processor.py
150–161). -/
structure FileInfoOk where
  file_path : List Seg
  file_name : String
  file_size : Nat
  worksheets : List WorksheetInfo
  total_worksheets : Nat
  created_time : String
  modified_time : String
  file_format : String
deriving Repr, DecidableEq

/-- The envelope returned by `get_file_info`; the three failure
constructors carry the fields of the three distinct failure dicts in the
source (validation failure, unsupported format, load/stat exception). -/
inductive SummaryResult where
  | ok (r : FileInfoOk)
  | errValidation (e : ValidationError) (file_path : List Seg)
  | errUnsupported (error : String) (supported_formats : List String)
  | errLoad (error : String) (file_path : List Seg)
deriving Repr, DecidableEq

/-- The `success` field of a summary envelope. -/
def SummaryResult.success : SummaryResult → Bool
  | .ok _ => true
  | _ => false

/-- The `error` field of a summary envelope (`none` on success). -/
def SummaryResult.errorMsg : SummaryResult → Option String
  | .ok _ => none
  | .errValidation e _ => some e.error
  | .errUnsupported e _ => some e
  | .errLoad e _ => some e

/-- `ExcelProcessor.validate_file_path` (src/excel_processor.py 35–90):
existence, then regular-file, then the work-directory policy, then the size
ceiling.  A `stat()` failure raises inside the `try` and lands in the
`except` branch, i.e. `VALIDATION_ERROR`. -/
def validate_file_path (cfg : Config) (root : FsTree) (p : List Seg) :
    Except ValidationError (List Seg) :=
  match lookupTree root (resolveSegs p) with
  | none =>
    .error { error := "File does not exist: " ++ showPath p,
             error_code := "FILE_NOT_FOUND" }
  | some (FsTree.dir _) =>
    .error { error := "Path is not a file: " ++ showPath p,
             error_code := "NOT_A_FILE" }
  | some (FsTree.file m _) =>
    if ¬ is_path_within_work_directory cfg p then
      .error { error := "File access denied: " ++ showPath p ++
                 ". Work directory: " ++ showPath cfg.work_directory,
               error_code := "ACCESS_DENIED",
               work_directory := some cfg.work_directory }
    else if ¬ m.readable then
      .error { error := "File validation error: " ++ m.oserror,
               error_code := "VALIDATION_ERROR" }
    else if m.size > cfg.max_file_size_mb * 1024 * 1024 then
      .error { error := "File too large", error_code := "FILE_TOO_LARGE" }
    else .ok (resolveSegs p)

/-- The openpyxl-view worksheet info derived for one sheet
(src/excel_processor.py 121–143): `max_row` counts the header row plus the
data rows, `max_column` the columns; `has_data` iff `max_row > 1` or
`max_column > 1`. -/
def worksheetInfoOf (i : Nat) (s : Worksheet) : WorksheetInfo :=
  let maxRow := s.rows.length + 1
  let maxCol := s.headers.length
  { name := s.name, index := i, row_count := maxRow, column_count := maxCol,
    has_data := decide (maxRow > 1 ∨ maxCol > 1) }

/-- `ExcelProcessor.get_file_info` (src/excel_processor.py 92–169):
validate the path (any failure is returned as a failure envelope), check
the format is supported, load the workbook (a parse failure raises and is
returned as the generic `Cannot get file information` envelope), and build
the success envelope. -/
def get_file_info (cfg : Config) (root : FsTree) (p : List Seg) : SummaryResult :=
  match validate_file_path cfg root p with
  | .error e => .errValidation e p
  | .ok _ =>
    if ¬ is_excel_file cfg (baseName p) then
      .errUnsupported ("Unsupported file format: " ++ pathSuffix (baseName p))
        cfg.supported_extensions
    else
      match lookupTree root (resolveSegs p) with
      | some (FsTree.file m (some wb)) =>
        .ok { file_path := resolveSegs p, file_name := baseName p,
              file_size := m.size,
              worksheets := wb.sheets.enum.map (fun e => worksheetInfoOf e.1 e.2),
              total_worksheets := wb.sheets.length,
              created_time := m.ctime ++ "Z", modified_time := m.mtime ++ "Z",
              file_format := lowerStr (pathSuffix (baseName p)) }
      | _ =>
        .errLoad ("Cannot get file information: parse failure") p

/-- The batch envelope of `get_multiple_excel_summaries` (src/server.py
56–63). -/
structure BatchResult where
  total_files : Nat
  successful_files : Nat
  failed_files : Nat
  summaries : List SummaryResult
  errors : List (List Seg × String)
deriving Repr, DecidableEq

/-- `get_multiple_excel_summaries` (src/server.py 39–63): call
`get_excel_summary` on each path in order and append the result to
`summaries`.  The `except` branch that would fill `errors` can never fire:
`get_excel_summary` catches every failure internally and returns an error
envelope instead of raising, so every envelope — including `success:false`
ones — is appended to `summaries`, `errors` stays empty,
`successful_files = len(summaries)` and `failed_files = 0`. -/
def get_multiple_excel_summaries (cfg : Config) (root : FsTree)
    (file_paths : List (List Seg)) : BatchResult :=
  let summaries := file_paths.map (get_file_info cfg root)
  { total_files := file_paths.length, successful_files := summaries.length,
    failed_files := 0, summaries := summaries, errors := [] }

/-- The Python truthiness test `max_rows and len(df) > max_rows`
(src/excel_processor.py 198): `None` and `0` are falsy. -/
def rowLimitHit (max_rows : Option Nat) (n : Nat) : Bool :=
  match max_rows with
  | none => false
  | some k => if k = 0 then false else decide (n > k)

/-- pandas sheet selection (src/excel_processor.py 188–195): a named sheet
is looked up by name, otherwise `sheet_name=0` takes the first sheet;
`none` models the `ValueError` pandas raises for a missing sheet. -/
def selectSheet (wb : Workbook) (worksheet_name : Option String) : Option Worksheet :=
  match worksheet_name with
  | some name => wb.sheets.find? (fun s => s.name == name)
  | none => wb.sheets.head?

/-- The success payload of `read_worksheet_data` (src/excel_processor.py
221–232). -/
structure ReadOk where
  file_path : List Seg
  worksheet_name : String
  headers : List String
  rows : List (List String)
  row_count : Nat
  column_count : Nat
  data_types : List (String × String)
  max_rows_applied : Option Nat
  include_headers : Bool
deriving Repr, DecidableEq

/-- The envelope returned by `read_worksheet_data` and
`search_in_worksheet` failure branches. -/
inductive ReadResult where
  | ok (r : ReadOk)
  | err (error : String) (file_path : Option (List Seg))
      (supported_formats : Option (List String))
deriving Repr, DecidableEq

/-- The `success` field of a read envelope. -/
def ReadResult.success : ReadResult → Bool
  | .ok _ => true
  | .err _ _ _ => false

/-- `ExcelProcessor.read_worksheet_data` (src/excel_processor.py 171–252):
check the format is supported, read the sheet with pandas (file-not-found,
permission and parse failures become failure envelopes), truncate to
`max_rows` when that limit is truthy and exceeded, and build the result.
Note: the source performs NO path-policy validation in this method. -/
def read_worksheet_data (cfg : Config) (root : FsTree) (p : List Seg)
    (worksheet_name : Option String) (max_rows : Option Nat)
    (include_headers : Bool) : ReadResult :=
  if ¬ is_excel_file cfg (baseName p) then
    .err ("Unsupported file format: " ++ pathSuffix (baseName p)) none
      (some cfg.supported_extensions)
  else
    match lookupTree root (resolveSegs p) with
    | none => .err ("File not found: " ++ showPath p) (some p) none
    | some (FsTree.dir _) => .err ("Cannot read data: is a directory") (some p) none
    | some (FsTree.file m wb) =>
      if ¬ m.readable then
        .err ("No permission to access file: " ++ showPath p) (some p) none
      else
        match wb with
        | none => .err ("Cannot read data: parse failure") (some p) none
        | some w =>
          match selectSheet w worksheet_name with
          | none => .err ("Cannot read data: worksheet not found") (some p) none
          | some df =>
            let dfRows :=
              if rowLimitHit max_rows df.rows.length then
                df.rows.take (max_rows.getD 0)
              else df.rows
            let hr :=
              if include_headers then (df.headers, dfRows)
              else ("Index" :: df.headers,
                    dfRows.enum.map (fun e => toString e.1 :: e.2))
            .ok { file_path := resolveSegs p,
                  worksheet_name := worksheet_name.getD "Sheet1",
                  headers := hr.1, rows := hr.2, row_count := hr.2.length,
                  column_count := hr.1.length,
                  data_types := df.headers.zip df.dtypes,
                  max_rows_applied := max_rows,
                  include_headers := include_headers }

/-- One match dict of `search_in_worksheet` (src/excel_processor.py
378–397). -/
structure SearchMatch where
  row : Nat
  column : String
  column_index : Nat
  value : String
  cell_address : String
deriving Repr, DecidableEq

/-- The success payload of `search_in_worksheet` (src/excel_processor.py
399–407). -/
structure SearchOk where
  file_path : List Seg
  worksheet_name : String
  search_term : String
  case_sensitive : Bool
  total_matches : Nat
  matchList : List SearchMatch
deriving Repr, DecidableEq

/-- The envelope returned by `search_in_worksheet`. -/
inductive SearchResult where
  | ok (r : SearchOk)
  | err (error : String) (file_path : Option (List Seg))
      (supported_formats : Option (List String))
deriving Repr, DecidableEq

/-- Python's substring test `needle in hay`. -/
def strContains (hay needle : String) : Bool :=
  decide (needle.data <:+: hay.data)

/-- The match-collection loop of `search_in_worksheet`
(src/excel_processor.py 373–397): column-major over `df.columns`, row by
row; case-insensitive search lowercases the cell before testing. -/
def searchMatches (df : Worksheet) (st : String) (case_sensitive : Bool) :
    List SearchMatch :=
  (df.headers.enum.map (fun ci =>
    ((df.rows.map (fun r => r.getD ci.1 "")).enum.filterMap (fun rv =>
      let hit := if case_sensitive then strContains rv.2 st
                 else strContains (lowerStr rv.2) st
      if hit then
        some { row := rv.1 + 1, column := ci.2, column_index := ci.1,
               value := rv.2, cell_address := ci.2 ++ toString (rv.1 + 1) }
      else none)))).flatten

/-- `ExcelProcessor.search_in_worksheet` (src/excel_processor.py 341–415):
check the format, read the sheet with pandas, lowercase the search term
when `case_sensitive` is false (rebinding the `search_term` variable, which
is then echoed in the result), collect the matches.  Note: the source
performs NO path-policy validation in this method, and every failure goes
through the single generic `except` branch. -/
def search_in_worksheet (cfg : Config) (root : FsTree) (p : List Seg)
    (search_term : String) (worksheet_name : Option String)
    (case_sensitive : Bool) : SearchResult :=
  if ¬ is_excel_file cfg (baseName p) then
    .err ("Unsupported file format: " ++ pathSuffix (baseName p)) none
      (some cfg.supported_extensions)
  else
    match lookupTree root (resolveSegs p) with
    | none => .err ("Error occurred during search: file not found") (some p) none
    | some (FsTree.dir _) =>
      .err ("Error occurred during search: is a directory") (some p) none
    | some (FsTree.file m wb) =>
      if ¬ m.readable then
        .err ("Error occurred during search: permission denied") (some p) none
      else
        match wb with
        | none => .err ("Error occurred during search: parse failure") (some p) none
        | some w =>
          match selectSheet w worksheet_name with
          | none =>
            .err ("Error occurred during search: worksheet not found") (some p) none
          | some df =>
            let st := if ¬ case_sensitive then lowerStr search_term else search_term
            let ms := searchMatches df st case_sensitive
            .ok { file_path := resolveSegs p,
                  worksheet_name := worksheet_name.getD "Sheet1",
                  search_term := st, case_sensitive := case_sensitive,
                  total_matches := ms.length, matchList := ms }

/-! ## Pattern search (src/file_scanner.py 203–266) -/

/-- A shell glob match on a single name with the `*` and `?` wildcards, as
`fnmatch` does for `Path.glob` pattern components; fuelled so that the
recursion is structural (every step shrinks `ps.length + cs.length`, so the
fuel chosen in `globMatch` always suffices). -/
def globMatchF : Nat → List Char → List Char → Bool
  | 0, _, _ => false
  | _ + 1, [], [] => true
  | fuel + 1, '*' :: ps, cs =>
    globMatchF fuel ps cs ||
      (match cs with
       | [] => false
       | _ :: cs2 => globMatchF fuel ('*' :: ps) cs2)
  | fuel + 1, '?' :: ps, _ :: cs => globMatchF fuel ps cs
  | fuel + 1, p :: ps, c :: cs => p == c && globMatchF fuel ps cs
  | _ + 1, _, _ => false

/-- Glob match with sufficient fuel. -/
def globMatch (ps cs : List Char) : Bool :=
  globMatchF (ps.length + cs.length + 1) ps cs

/-- The envelope returned by `find_excel_files_by_name`. -/
inductive FindResult where
  | ok (directory : List Seg) (patternStr : String) (total_files : Nat)
      (files : List FileDescriptor)
  | err (error : String) (directory : List Seg) (patternStr : String)
deriving Repr, DecidableEq

/-- `FileScanner.find_excel_files_by_name` (src/file_scanner.py 203–266):
check only that the directory exists and is a directory — the source never
consults the work-directory policy here — then glob `pattern` (flat) or
`**/pattern` (recursive) and keep the regular files with a supported
extension. -/
def find_excel_files_by_name (cfg : Config) (root : FsTree) (p : List Seg)
    (filename_pattern : String) (recursive : Bool) : FindResult :=
  match lookupTree root (resolveSegs p) with
  | some (FsTree.dir es) =>
    let base := resolveSegs p
    let cands := if recursive then globRec base es else globFlat base es
    let cands := cands.filter
      (fun e => globMatch filename_pattern.data (baseName e.1).data)
    let files := cands.filterMap (fun e =>
      match e.2 with
      | FsTree.file m _ =>
        if is_excel_file cfg (baseName e.1) then some (get_file_metadata e.1 m)
        else none
      | FsTree.dir _ => none)
    .ok p filename_pattern files.length files
  | _ => .err ("Invalid directory: " ++ showPath p) p filename_pattern

/-! ## Server dispatch (src/server.py) -/

/-- The envelope of the `get_excel_summary` branch of `call_tool`
(src/server.py 194–247). -/
inductive ToolResult where
  | single (r : SummaryResult)
  | batch (r : BatchResult)
  | argError (error : String)
deriving Repr, DecidableEq

/-- The literal keys of the dicts serialized in the argument-error branches
of `call_tool` for `get_excel_summary` (src/server.py 214–222 and
236–246): exactly `success` and `error` — no error-code field. -/
def argErrorKeys : List String := ["success", "error"]

/-- Python truthiness of the `file_path` argument (a string: `None` and
`""` are falsy). -/
def pyTruthyPath : Option (List Seg) → Bool
  | none => false
  | some p => !p.isEmpty

/-- Python truthiness of the `file_paths` argument (a list: `None` and `[]`
are falsy). -/
def pyTruthyList : Option (List (List Seg)) → Bool
  | none => false
  | some l => !l.isEmpty

/-- The `get_excel_summary` branch of `call_tool` (src/server.py 194–247):
single-file when `file_path` is truthy and `file_paths` falsy; batch when
`file_paths` is not `None` and `file_path` falsy, with an empty list
rejected; anything else — both truthy or both absent — falls to the
`Either file_path or file_paths is required, but not both` error dict. -/
def tool_get_excel_summary (cfg : Config) (root : FsTree)
    (file_path : Option (List Seg)) (file_paths : Option (List (List Seg))) :
    ToolResult :=
  if pyTruthyPath file_path && !pyTruthyList file_paths then
    .single (get_file_info cfg root (file_path.getD []))
  else if file_paths.isSome && !pyTruthyPath file_path then
    if (file_paths.getD []).isEmpty then
      .argError "file_paths must be a non-empty list"
    else .batch (get_multiple_excel_summaries cfg root (file_paths.getD []))
  else .argError "Either file_path or file_paths is required, but not both"

/-! ## Concrete fixtures -/

/-- A small worksheet: two columns, five data rows. -/
def sheetSmall : Worksheet :=
  { name := "Sheet1", headers := ["A", "B"], dtypes := ["int64", "object"],
    rows := [["1", "x"], ["2", "y"], ["3", "z"], ["4", "w"], ["5", "v"]] }

/-- A small parsed workbook: just `sheetSmall`. -/
def wbSmall : Workbook := { sheets := [sheetSmall] }

/-- Metadata of a file whose `stat()` succeeds. -/
def metaOk : FileMeta :=
  { size := 10, mtime := "2024-01-01T00:00:00", ctime := "2024-01-01T00:00:00" }

/-- Metadata of a file whose `stat()` raises `PermissionError`. -/
def metaBad : FileMeta :=
  { size := 10, mtime := "2024-01-01T00:00:00", ctime := "2024-01-01T00:00:00",
    readable := false, oserror := "Permission denied" }

/-- The entries of `/work`: two readable workbooks, one file whose metadata
collection fails, one non-Excel file, and a subdirectory with one more
workbook. -/
def workEntries : List (String × FsTree) :=
  [("a.xlsx", FsTree.file metaOk (some wbSmall)),
   ("b.xlsx", FsTree.file metaOk (some wbSmall)),
   ("bad.xlsx", FsTree.file metaBad (some wbSmall)),
   ("notes.txt", FsTree.file metaOk none),
   ("sub", FsTree.dir [("d.xlsx", FsTree.file metaOk (some wbSmall))])]

/-- A concrete filesystem: the work root `/work` and a sibling `/secret`
outside it. -/
def fsA : FsTree :=
  FsTree.dir
    [("work", FsTree.dir workEntries),
     ("secret", FsTree.dir [("s.xlsx", FsTree.file metaOk (some wbSmall))])]

/-- The `search_term` field of a search envelope (`none` on failure). -/
def SearchResult.searchTermOf : SearchResult → Option String
  | .ok r => some r.search_term
  | .err _ _ _ => none

/-- The `success` field of a search envelope. -/
def SearchResult.success : SearchResult → Bool
  | .ok _ => true
  | .err _ _ _ => false

/-- The `rows` field of a read envelope (`none` on failure). -/
def ReadResult.rowsOf : ReadResult → Option (List (List String))
  | .ok r => some r.rows
  | .err _ _ _ => none

/-- A file outside the work root. -/
def secretFile : List Seg := ["secret", "s.xlsx"]

/-- A batch of three valid paths and one nonexistent path, in order. -/
def batch4 : List (List Seg) :=
  [["work", "a.xlsx"], ["work", "b.xlsx"], ["work", "sub", "d.xlsx"],
   ["work", "missing.xlsx"]]

/-- The result of the case-insensitive search for `"X"` in `a.xlsx`. -/
def searchOkX : SearchOk :=
  { file_path := ["work", "a.xlsx"], worksheet_name := "Sheet1",
    search_term := "x", case_sensitive := false, total_matches := 1,
    matchList := [{ row := 1, column := "B", column_index := 1, value := "x",
                    cell_address := "B1" }] }

/-- The result of reading `a.xlsx` with `max_rows = 3`. -/
def readOk3 : ReadOk :=
  { file_path := ["work", "a.xlsx"], worksheet_name := "Sheet1",
    headers := ["A", "B"], rows := [["1", "x"], ["2", "y"], ["3", "z"]],
    row_count := 3, column_count := 2,
    data_types := [("A", "int64"), ("B", "object")],
    max_rows_applied := some 3, include_headers := true }

/-- The degraded descriptor the scan produces for the unreadable
`bad.xlsx`. -/
def degradedBad : FileDescriptor := get_file_metadata ["work", "bad.xlsx"] metaBad

/-- The file descriptors the scan loop collects from a glob listing when no
cap applies: metadata of every regular file with a supported extension, in
listing order. -/
def collectExcel (cfg : Config) : List (List Seg × FsTree) → List FileDescriptor
  | [] => []
  | (p, FsTree.file m _) :: rest =>
    if is_excel_file cfg (baseName p) then
      get_file_metadata p m :: collectExcel cfg rest
    else collectExcel cfg rest
  | (_, FsTree.dir _) :: rest => collectExcel cfg rest

/-! ## Helper lemmas -/

theorem get_file_metadata_path (p : List Seg) (m : FileMeta) :
    (get_file_metadata p m).file_path = p := by
  unfold get_file_metadata
  split <;> rfl

theorem baseName_append (l : List Seg) (n : Seg) : baseName (l ++ [n]) = n := by
  induction l with
  | nil => rfl
  | cons a rest ih =>
    cases rest with
    | nil => rfl
    | cons b rest2 => simpa [baseName] using ih

theorem findEntry_mem (s : String) (es : List (String × FsTree)) (t : FsTree)
    (h : findEntry s es = some t) : (s, t) ∈ es := by
  induction es with
  | nil => cases h
  | cons e rest ih =>
    obtain ⟨n, u⟩ := e
    by_cases hn : n = s
    · subst hn
      simp [findEntry] at h
      subst h
      exact List.mem_cons_self _ _
    · simp only [findEntry, if_neg hn] at h
      exact List.mem_cons_of_mem _ (ih h)

theorem scanLoop_none_eq (cfg : Config) (l : List (List Seg × FsTree)) :
    ∀ acc sc, scanLoop cfg none l acc sc =
      (acc ++ collectExcel cfg l, sc + l.length) := by
  induction l with
  | nil => intro acc sc; simp [scanLoop, collectExcel]
  | cons e rest ih =>
    intro acc sc
    obtain ⟨p, t⟩ := e
    cases t with
    | file m w =>
      by_cases hex : is_excel_file cfg (baseName p) <;>
        simp [scanLoop, capReached, hex, collectExcel, ih] <;> omega
    | dir es =>
      simp [scanLoop, capReached, collectExcel, ih]
      omega

theorem collectExcel_append (cfg : Config) (l1 l2 : List (List Seg × FsTree)) :
    collectExcel cfg (l1 ++ l2) = collectExcel cfg l1 ++ collectExcel cfg l2 := by
  induction l1 with
  | nil => simp [collectExcel]
  | cons e rest ih =>
    obtain ⟨p, t⟩ := e
    cases t with
    | file m w =>
      by_cases hex : is_excel_file cfg (baseName p) <;>
        simp [collectExcel, hex, ih]
    | dir es => simp [collectExcel, ih]

theorem mem_collectExcel (cfg : Config) (l : List (List Seg × FsTree))
    (fd : FileDescriptor) (h : fd ∈ collectExcel cfg l) :
    ∃ p m w, (p, FsTree.file m w) ∈ l ∧
      is_excel_file cfg (baseName p) = true ∧ fd = get_file_metadata p m := by
  induction l with
  | nil => cases h
  | cons e rest ih =>
    obtain ⟨p, t⟩ := e
    cases t with
    | file m w =>
      by_cases hex : is_excel_file cfg (baseName p)
      · rw [collectExcel, if_pos hex] at h
        rcases List.mem_cons.mp h with heq | h2
        · exact ⟨p, m, w, List.mem_cons_self _ _, hex, heq⟩
        · obtain ⟨p', m', w', hmem, hex', heq'⟩ := ih h2
          exact ⟨p', m', w', List.mem_cons_of_mem _ hmem, hex', heq'⟩
      · rw [collectExcel, if_neg hex] at h
        obtain ⟨p', m', w', hmem, hex', heq'⟩ := ih h
        exact ⟨p', m', w', List.mem_cons_of_mem _ hmem, hex', heq'⟩
    | dir es =>
      rw [collectExcel] at h
      obtain ⟨p', m', w', hmem, hex', heq'⟩ := ih h
      exact ⟨p', m', w', List.mem_cons_of_mem _ hmem, hex', heq'⟩

theorem collectExcel_mem_of (cfg : Config) (l : List (List Seg × FsTree))
    (p : List Seg) (m : FileMeta) (w : Option Workbook)
    (hmem : (p, FsTree.file m w) ∈ l)
    (hex : is_excel_file cfg (baseName p) = true) :
    get_file_metadata p m ∈ collectExcel cfg l := by
  induction l with
  | nil => cases hmem
  | cons e rest ih =>
    rcases List.mem_cons.mp hmem with heq | h2
    · rw [← heq, collectExcel, if_pos hex]
      exact List.mem_cons_self _ _
    · obtain ⟨p', t'⟩ := e
      cases t' with
      | file m' w' =>
        by_cases hex' : is_excel_file cfg (baseName p')
        · rw [collectExcel, if_pos hex']
          exact List.mem_cons_of_mem _ (ih h2)
        · rw [collectExcel, if_neg hex']
          exact ih h2
      | dir es =>
        rw [collectExcel]
        exact ih h2

theorem mem_globFlat (base : List Seg) (es : List (String × FsTree))
    (x : List Seg × FsTree) :
    x ∈ globFlat base es ↔ ∃ n t, (n, t) ∈ es ∧ x = (base ++ [n], t) := by
  simp only [globFlat, List.mem_map]
  constructor
  · rintro ⟨⟨n, t⟩, hmem, rfl⟩
    exact ⟨n, t, hmem, rfl⟩
  · rintro ⟨n, t, hmem, rfl⟩
    exact ⟨⟨n, t⟩, hmem, rfl⟩

theorem dirsUnderList_mem_of_entry (base : List Seg)
    (es : List (String × FsTree)) (n : String) (t : FsTree)
    (d : List Seg × List (String × FsTree))
    (hmem : (n, t) ∈ es) (hd : d ∈ dirsUnder (base ++ [n]) t) :
    d ∈ dirsUnderList base es := by
  induction es with
  | nil => cases hmem
  | cons e rest ih =>
    obtain ⟨n', t'⟩ := e
    rcases List.mem_cons.mp hmem with heq | h2
    · obtain ⟨rfl, rfl⟩ := Prod.mk.injEq .. ▸ And.intro (congrArg Prod.fst heq) (congrArg Prod.snd heq)
      rw [dirsUnderList]
      exact List.mem_append_left _ hd
    · rw [dirsUnderList]
      exact List.mem_append_right _ (ih h2)

theorem mem_globRec (base : List Seg) (es : List (String × FsTree))
    (x : List Seg × FsTree) :
    x ∈ globRec base es ↔
      ∃ d, d ∈ dirsUnder base (FsTree.dir es) ∧ x ∈ globFlat d.1 d.2 := by
  simp only [globRec, List.mem_flatten, List.mem_map]
  constructor
  · rintro ⟨l, ⟨d, hd, rfl⟩, hx⟩
    exact ⟨d, hd, hx⟩
  · rintro ⟨d, hd, hx⟩
    exact ⟨globFlat d.1 d.2, ⟨d, hd, rfl⟩, hx⟩

theorem globRec_eq_flat_append (base : List Seg) (es : List (String × FsTree)) :
    globRec base es =
      globFlat base es ++
        ((dirsUnderList base es).map (fun d => globFlat d.1 d.2)).flatten := by
  rw [globRec, dirsUnder]
  simp

theorem lookup_mem_globRec (rel : List Seg) :
    ∀ (es : List (String × FsTree)) (base : List Seg) (t : FsTree),
      rel ≠ [] → lookupSegs rel (FsTree.dir es) = some t →
      (base ++ rel, t) ∈ globRec base es := by
  induction rel with
  | nil => intro es base t hne _; exact absurd rfl hne
  | cons s rest ih =>
    intro es base t _ hlook
    simp only [lookupSegs] at hlook
    cases hfe : findEntry s es with
    | none => rw [hfe] at hlook; cases hlook
    | some u =>
      rw [hfe] at hlook
      have hmem := findEntry_mem s es u hfe
      cases rest with
      | nil =>
        simp only [lookupSegs, Option.some.injEq] at hlook
        subst hlook
        rw [globRec_eq_flat_append]
        exact List.mem_append_left _
          ((mem_globFlat base es (base ++ [s], u)).mpr ⟨s, u, hmem, rfl⟩)
      | cons s2 rest2 =>
        cases u with
        | file m w =>
          simp only [lookupSegs] at hlook
          cases hlook
        | dir es2 =>
          have hx := ih es2 (base ++ [s]) t (by simp) hlook
          obtain ⟨d, hd, hflat⟩ := (mem_globRec (base ++ [s]) es2 _).mp hx
          have hd2 : d ∈ dirsUnderList base es :=
            dirsUnderList_mem_of_entry base es s (FsTree.dir es2) d hmem hd
          have hres : (base ++ [s] ++ (s2 :: rest2), t) ∈ globRec base es := by
            refine (mem_globRec base es _).mpr ⟨d, ?_, hflat⟩
            rw [dirsUnder]
            exact List.mem_cons_of_mem _ hd2
          simpa [List.append_assoc] using hres

theorem validate_dir_ok (cfg : Config) (root : FsTree) (p : List Seg)
    (es : List (String × FsTree))
    (h : lookupTree root (resolveSegs p) = some (FsTree.dir es))
    (hw : is_path_within_work_directory cfg p = true) :
    validate_directory_path cfg root p = .ok (resolveSegs p) := by
  unfold validate_directory_path
  rw [h]
  simp [hw]

theorem scan_files_eq (cfg : Config) (root : FsTree) (p : List Seg)
    (es : List (String × FsTree)) (rec : Bool)
    (h : lookupTree root (resolveSegs p) = some (FsTree.dir es))
    (hw : is_path_within_work_directory cfg p = true) :
    (scan_directory cfg root p rec none).filesOf =
      collectExcel cfg (if rec then globRec (resolveSegs p) es
                        else globFlat (resolveSegs p) es) ∧
    (scan_directory cfg root p rec none).success = true := by
  unfold scan_directory
  rw [validate_dir_ok cfg root p es h hw]
  simp [lookupDirEntries, h, scanLoop_none_eq, ScanResult.filesOf,
    ScanResult.success]

theorem scanLoop_zero (cfg : Config) (l : List (List Seg × FsTree))
    (acc : List FileDescriptor) (sc : Nat) :
    scanLoop cfg (some 0) l acc sc = scanLoop cfg none l acc sc := by
  induction l generalizing acc sc with
  | nil => rfl
  | cons e rest ih =>
    obtain ⟨p, t⟩ := e
    cases t with
    | file m w =>
      by_cases hex : is_excel_file cfg (baseName p) <;>
        simp [scanLoop, capReached, hex, ih]
    | dir es => simp [scanLoop, capReached, ih]

theorem scan_zero_eq (cfg : Config) (root : FsTree) (p : List Seg) (rec : Bool) :
    scan_directory cfg root p rec (some 0) = scan_directory cfg root p rec none := by
  unfold scan_directory
  cases hval : validate_directory_path cfg root p with
  | error e => simp
  | ok d => simp [scanLoop_zero]

theorem read_rowsOf_zero (cfg : Config) (root : FsTree) (p : List Seg)
    (ws : Option String) (ih : Bool) :
    (read_worksheet_data cfg root p ws (some 0) ih).rowsOf =
      (read_worksheet_data cfg root p ws none ih).rowsOf := by
  unfold read_worksheet_data
  split
  · rfl
  · cases hlk : lookupTree root (resolveSegs p) with
    | none => simp
    | some t =>
      cases t with
      | dir es => simp
      | file m wb =>
        simp only []
        split
        · rfl
        · cases wb with
          | none => rfl
          | some w =>
            cases hsel : selectSheet w ws with
            | none => simp [hsel]
            | some df => simp [hsel, rowLimitHit, ReadResult.rowsOf]

theorem segPrefix_iff (a b : List Seg) : segPrefix a b = true ↔ ∃ r, b = a ++ r := by
  induction a generalizing b with
  | nil => simp [segPrefix]
  | cons x xs ih =>
    cases b with
    | nil =>
      simp [segPrefix]
    | cons y ys =>
      simp only [segPrefix, Bool.and_eq_true, beq_iff_eq, ih]
      constructor
      · rintro ⟨rfl, r, rfl⟩
        exact ⟨r, rfl⟩
      · rintro ⟨r, hr⟩
        cases hr
        exact ⟨rfl, r, rfl⟩

/-! ## Claim theorems -/

/-- C1: the path-policy check returns ALLOW iff the canonical form of the
candidate equals the work root or is a descendant of it on path-segment
boundaries; in particular `/work/sub/../a.xlsx` is allowed under root
`/work` while the sibling `/work2/b.xlsx` is denied. -/
theorem C1_path_policy_canonical :
    (∀ cfg p, is_path_within_work_directory cfg p = true ↔ specPathAllow cfg p) ∧
    is_path_within_work_directory workCfg dotDotPath = true ∧
    is_path_within_work_directory workCfg siblingPath = false := by
  refine ⟨fun cfg p => ?_, by decide, by decide⟩
  unfold is_path_within_work_directory specPathAllow
  by_cases h : resolveSegs p = resolveSegs cfg.work_directory
  · simp [h]
  · simp only [h, if_false, false_or]
    rw [segPrefix_iff]
    constructor
    · rintro ⟨r, hr⟩
      refine ⟨r, fun hnil => h ?_, hr⟩
      simp [hr, hnil]
    · rintro ⟨r, _, hr⟩
      exact ⟨r, hr⟩

/-- C9: a limit of zero means unlimited at the public interface: a scan
with `max_files = 0` behaves exactly like a scan with no limit (and in
particular returns every matching file), and `read_data` with
`max_rows = 0` returns all rows — concretely, all five rows of the fixture
sheet — rather than zero rows. -/
theorem C9_zero_limit_means_unlimited :
    (∀ cfg root p rec,
        scan_directory cfg root p rec (some 0) =
          scan_directory cfg root p rec none) ∧
    (∀ cfg root p ws ih,
        (read_worksheet_data cfg root p ws (some 0) ih).rowsOf =
          (read_worksheet_data cfg root p ws none ih).rowsOf) ∧
    (scan_directory workCfg fsA ["work"] false (some 0)).filesOf.length = 3 ∧
    (read_worksheet_data workCfg fsA ["work", "a.xlsx"] none (some 0)
        true).rowsOf = some sheetSmall.rows := by
  refine ⟨fun cfg root p rec => scan_zero_eq cfg root p rec,
          fun cfg root p ws ih => read_rowsOf_zero cfg root p ws ih,
          by decide, by decide⟩

/-- C10: the `search_term` echoed in a successful search envelope is the
lowercased input term when `case_sensitive` is false (the caller's casing
is not preserved, because the source rebinds the variable before building
the result), and the unchanged input term when `case_sensitive` is true. -/
theorem C10_search_term_echo (cfg : Config) (root : FsTree) (p : List Seg)
    (term : String) (ws : Option String) (cs : Bool) (r : SearchOk)
    (h : search_in_worksheet cfg root p term ws cs = SearchResult.ok r) :
    r.search_term = if cs then term else lowerStr term := by
  cases cs with
  | false =>
    unfold search_in_worksheet at h
    repeat' split at h
    all_goals try cases h
    all_goals simp_all
  | true =>
    unfold search_in_worksheet at h
    repeat' split at h
    all_goals try cases h
    all_goals simp_all

/-- C10 witness: the concrete case-insensitive search for `"X"` echoes
`"x"`. -/
theorem C10_search_term_echo_witness :
    search_in_worksheet workCfg fsA ["work", "a.xlsx"] "X" none false =
      SearchResult.ok searchOkX ∧
    searchOkX.search_term = if false then "X" else lowerStr "X" :=
  ⟨by decide,
   C10_search_term_echo workCfg fsA ["work", "a.xlsx"] "X" none false searchOkX
     (by decide)⟩

/-- C7: a successful `read_data` with a positive `max_rows = k` returns
exactly `min k n` rows, where `n` is the selected sheet's actual number of
data rows, and in every successful result `column_count` equals the length
of the returned `headers` list. -/
theorem C7_read_min_rows (cfg : Config) (root : FsTree) (p : List Seg)
    (ws : Option String) (k : Nat) (ih : Bool) (m : FileMeta) (w : Workbook)
    (df : Worksheet) (r : ReadOk)
    (hk : k ≠ 0)
    (hfile : lookupTree root (resolveSegs p) = some (FsTree.file m (some w)))
    (hsheet : selectSheet w ws = some df)
    (h : read_worksheet_data cfg root p ws (some k) ih = ReadResult.ok r) :
    r.row_count = min k df.rows.length ∧
      r.column_count = r.headers.length := by
  unfold read_worksheet_data at h
  rw [hfile] at h
  split at h
  · cases h
  · simp only [hfile, hsheet] at h
    split at h
    · cases h
    · cases h
      constructor
      · by_cases hlim : rowLimitHit (some k) df.rows.length
        · cases ih <;>
            simp [hlim, List.length_take, List.enum_map, List.length_map]
        · have hle : df.rows.length ≤ k := by
            simp [rowLimitHit, hk] at hlim
            omega
          cases ih <;> simp [hlim, List.length_map] <;> omega
      · cases ih <;> simp

/-- C7 witness: reading `a.xlsx` (5 data rows) with `max_rows = 3` returns
3 rows and a consistent column count. -/
theorem C7_read_min_rows_witness :
    (3 : Nat) ≠ 0 ∧
    lookupTree fsA (resolveSegs ["work", "a.xlsx"]) =
      some (FsTree.file metaOk (some wbSmall)) ∧
    selectSheet wbSmall none = some sheetSmall ∧
    read_worksheet_data workCfg fsA ["work", "a.xlsx"] none (some 3) true =
      ReadResult.ok readOk3 ∧
    (readOk3.row_count = min 3 sheetSmall.rows.length ∧
      readOk3.column_count = readOk3.headers.length) :=
  ⟨by decide, rfl, rfl, by decide,
   C7_read_min_rows workCfg fsA ["work", "a.xlsx"] none 3 true metaOk wbSmall
     sheetSmall readOk3 (by decide) rfl rfl (by decide)⟩

/-- C5 counterexample: supplying both `file_path` and `file_paths` (or an
empty `file_paths`) does NOT yield an `errorCode` of `MISSING_ARGUMENT` /
`EMPTY_BATCH`: the source returns bare `{success, error}` dicts with no
error-code field at all. -/
theorem C5_counterexample_no_error_code :
    tool_get_excel_summary workCfg fsA (some ["work", "a.xlsx"])
        (some [["work", "b.xlsx"]]) =
      ToolResult.argError "Either file_path or file_paths is required, but not both" ∧
    tool_get_excel_summary workCfg fsA none (some []) =
      ToolResult.argError "file_paths must be a non-empty list" ∧
    "error_code" ∉ argErrorKeys ∧ "errorCode" ∉ argErrorKeys := by
  refine ⟨by decide, by decide, by decide, by decide⟩

/-- C5 (amended): supplying both `file_path` and `file_paths` — or neither
— yields the failure envelope whose `error` is `Either file_path or
file_paths is required, but not both`, and an empty `file_paths` list
yields the distinct failure envelope `file_paths must be a non-empty
list`; these envelopes carry only `success` and `error`, no error-code
field, and are built without invoking any collaborator. -/
theorem C5_arg_error_envelopes (cfg : Config) (root : FsTree) (s : Seg)
    (q : List Seg) (x : List Seg) (l : List (List Seg)) :
    tool_get_excel_summary cfg root (some (s :: q)) (some (x :: l)) =
      ToolResult.argError "Either file_path or file_paths is required, but not both" ∧
    tool_get_excel_summary cfg root none none =
      ToolResult.argError "Either file_path or file_paths is required, but not both" ∧
    tool_get_excel_summary cfg root none (some []) =
      ToolResult.argError "file_paths must be a non-empty list" ∧
    "error_code" ∉ argErrorKeys := by
  refine ⟨?_, rfl, rfl, by decide⟩
  simp [tool_get_excel_summary, pyTruthyPath, pyTruthyList]

/-- C4: the batch summary over 3 valid paths and 1 nonexistent path does
NOT report `successful_files = 3, failed_files = 1`: `get_excel_summary`
returns failure envelopes instead of raising, so the per-item `except`
never fires, the failure envelope for the missing path lands in
`summaries` (in input order, with an error referencing that path), and the
call reports `successful_files = 4, failed_files = 0` with empty
`errors`. -/
theorem C4_batch_miscounts_failures :
    (get_multiple_excel_summaries workCfg fsA batch4).successful_files = 4 ∧
    (get_multiple_excel_summaries workCfg fsA batch4).failed_files = 0 ∧
    (get_multiple_excel_summaries workCfg fsA batch4).errors = [] ∧
    (get_multiple_excel_summaries workCfg fsA batch4).summaries.map
        SummaryResult.success = [true, true, true, false] ∧
    (get_multiple_excel_summaries workCfg fsA batch4).summaries.map
        SummaryResult.errorMsg =
      [none, none, none, some "File does not exist: /work/missing.xlsx"] := by
  refine ⟨by decide, by decide, by decide, by decide, by decide⟩

/-- C2: path-policy validation is NOT performed by every operation:
`/secret/s.xlsx` fails the policy under work root `/work`, yet `read_data`
returns its full contents, `search` succeeds on it, and the find-by-pattern
scan enumerates and returns its descriptor.  (Only `get_summary` and
`list_files` validate.) -/
theorem C2_reads_bypass_path_policy :
    is_path_within_work_directory workCfg secretFile = false ∧
    (read_worksheet_data workCfg fsA secretFile none none true).rowsOf =
      some sheetSmall.rows ∧
    (search_in_worksheet workCfg fsA secretFile "x" none true).success = true ∧
    is_path_within_work_directory workCfg ["secret"] = false ∧
    find_excel_files_by_name workCfg fsA ["secret"] "*.xlsx" false =
      FindResult.ok ["secret"] "*.xlsx" 1 [get_file_metadata secretFile metaOk] := by
  refine ⟨by decide, by decide, by decide, by decide, by decide⟩

/-- C3 counterexample: scanning `/work` (3 matching files) with
`max_files = 1` returns 1 file although more matches existed, and the
success envelope has no `truncated` key at all. -/
theorem C3_counterexample_no_truncated_flag :
    (scan_directory workCfg fsA ["work"] false (some 1)).filesOf.length = 1 ∧
    (scan_directory workCfg fsA ["work"] false none).filesOf.length = 3 ∧
    "truncated" ∉ (scan_directory workCfg fsA ["work"] false (some 1)).keys := by
  refine ⟨by decide, by decide, by decide⟩

theorem scanLoop_length_le (cfg : Config) (k : Nat) (hk : k ≠ 0)
    (l : List (List Seg × FsTree)) (acc : List FileDescriptor) (sc : Nat)
    (hacc : acc.length ≤ k) :
    ((scanLoop cfg (some k) l acc sc).1).length ≤ k := by
  induction l generalizing acc sc with
  | nil => exact hacc
  | cons e rest ih =>
    obtain ⟨p, t⟩ := e
    by_cases hcap : capReached (some k) acc.length
    · simp [scanLoop, hcap]
      exact hacc
    · have hlt : acc.length < k := by
        simp [capReached, hk] at hcap
        omega
      cases t with
      | file m w =>
        by_cases hex : is_excel_file cfg (baseName p)
        · simp only [scanLoop, hcap, if_false, hex, if_true]
          exact ih _ _ (by simp; omega)
        · simp only [scanLoop, hcap, if_false, hex]
          exact ih _ _ hacc
      | dir es =>
        simp only [scanLoop, hcap, if_false]
        exact ih _ _ hacc

/-- C3 (amended): a scan with a positive `max_files = N` returns at most
`N` files, but no `truncated` flag is ever set — the success envelope has
no such key, so truncation is not signalled to the caller. -/
theorem C3_cap_bounds_files_no_flag (cfg : Config) (root : FsTree)
    (p : List Seg) (rec : Bool) (k : Nat) :
    (scan_directory cfg root p rec (some (k + 1))).filesOf.length ≤ k + 1 ∧
    "truncated" ∉ (scan_directory cfg root p rec (some (k + 1))).keys := by
  constructor
  · unfold scan_directory
    cases hval : validate_directory_path cfg root p with
    | error e => simp [ScanResult.filesOf]
    | ok d =>
      simp only [ScanResult.filesOf]
      exact scanLoop_length_le cfg (k + 1) (Nat.succ_ne_zero k) _ [] 0
        (by simp)
  · cases hres : scan_directory cfg root p rec (some (k + 1)) <;>
      simp [ScanResult.keys]

/-- Membership of the unreadable `bad.xlsx` among the `/work` entries. -/
theorem bad_mem_workEntries :
    ("bad.xlsx", FsTree.file metaBad (some wbSmall)) ∈ workEntries :=
  List.Mem.tail _ (List.Mem.tail _ (List.Mem.head _))

/-- C6: a flat scan returns only files that are immediate children of the
scanned directory, and a recursive scan returns a superset: every file of
the flat scan plus the descriptor of every matching file anywhere below
the directory. -/
theorem C6_flat_vs_recursive_scan (cfg : Config) (root : FsTree)
    (p : List Seg) (es : List (String × FsTree))
    (h : lookupTree root (resolveSegs p) = some (FsTree.dir es))
    (hw : is_path_within_work_directory cfg p = true) :
    (∀ fd, fd ∈ (scan_directory cfg root p false none).filesOf →
        ∃ n, fd.file_path = resolveSegs p ++ [n]) ∧
    (∀ fd, fd ∈ (scan_directory cfg root p false none).filesOf →
        fd ∈ (scan_directory cfg root p true none).filesOf) ∧
    (∀ rel m w, rel ≠ [] →
        lookupSegs rel (FsTree.dir es) = some (FsTree.file m w) →
        is_excel_file cfg (baseName (resolveSegs p ++ rel)) = true →
        get_file_metadata (resolveSegs p ++ rel) m ∈
          (scan_directory cfg root p true none).filesOf) := by
  have hflat := (scan_files_eq cfg root p es false h hw).1
  have hrec := (scan_files_eq cfg root p es true h hw).1
  simp only [if_true, if_false, Bool.false_eq_true] at hflat hrec
  refine ⟨?_, ?_, ?_⟩
  · intro fd hfd
    rw [hflat] at hfd
    obtain ⟨q, m, w, hqmem, _, rfl⟩ := mem_collectExcel cfg _ fd hfd
    obtain ⟨n, t, _, heq⟩ := (mem_globFlat (resolveSegs p) es _).mp hqmem
    obtain ⟨rfl, -⟩ := Prod.mk.injEq .. ▸
      And.intro (congrArg Prod.fst heq) (congrArg Prod.snd heq)
    exact ⟨n, get_file_metadata_path _ _⟩
  · intro fd hfd
    rw [hflat] at hfd
    rw [hrec, globRec_eq_flat_append, collectExcel_append]
    exact List.mem_append_left _ hfd
  · intro rel m w hne hlook hex
    rw [hrec]
    exact collectExcel_mem_of cfg _ _ m w
      (lookup_mem_globRec rel es (resolveSegs p) _ hne hlook) hex

/-- C6 witness: under `/work`, the descendant `sub/d.xlsx` appears in the
recursive scan's files. -/
theorem C6_flat_vs_recursive_scan_witness :
    lookupTree fsA (resolveSegs ["work"]) = some (FsTree.dir workEntries) ∧
    is_path_within_work_directory workCfg ["work"] = true ∧
    ["sub", "d.xlsx"] ≠ ([] : List Seg) ∧
    lookupSegs ["sub", "d.xlsx"] (FsTree.dir workEntries) =
      some (FsTree.file metaOk (some wbSmall)) ∧
    is_excel_file workCfg (baseName (resolveSegs ["work"] ++ ["sub", "d.xlsx"])) = true ∧
    get_file_metadata (resolveSegs ["work"] ++ ["sub", "d.xlsx"]) metaOk ∈
      (scan_directory workCfg fsA ["work"] true none).filesOf :=
  ⟨rfl, by decide, by decide, rfl, by decide,
   (C6_flat_vs_recursive_scan workCfg fsA ["work"] workEntries rfl
       (by decide)).2.2 ["sub", "d.xlsx"] metaOk (some wbSmall) (by decide) rfl
     (by decide)⟩

/-- C8 counterexample: a file whose metadata collection fails is NOT
omitted from the scan result: scanning `/work` succeeds and the unreadable
`bad.xlsx` appears in `files` as a degraded entry (size 0, null
timestamps, the exception message). -/
theorem C8_counterexample_degraded_not_omitted :
    (scan_directory workCfg fsA ["work"] false none).success = true ∧
    degradedBad ∈ (scan_directory workCfg fsA ["work"] false none).filesOf ∧
    degradedBad.file_name = "bad.xlsx" ∧
    degradedBad.file_size = 0 ∧
    degradedBad.error = some "Permission denied" := by
  refine ⟨by decide, by decide, by decide, by decide, by decide⟩

/-- C8 (amended): a metadata-collection failure mid-scan neither aborts the
scan nor surfaces as an envelope error; the affected file is NOT omitted —
it is included in the result set with a degraded entry: size 0, null
timestamps and the exception message in its `error` field. -/
theorem C8_metadata_failure_degrades (cfg : Config) (root : FsTree)
    (p : List Seg) (es : List (String × FsTree)) (n : String) (m : FileMeta)
    (w : Option Workbook)
    (h : lookupTree root (resolveSegs p) = some (FsTree.dir es))
    (hw : is_path_within_work_directory cfg p = true)
    (hmem : (n, FsTree.file m w) ∈ es)
    (hex : is_excel_file cfg n = true)
    (hbad : m.readable = false) :
    (scan_directory cfg root p false none).success = true ∧
    get_file_metadata (resolveSegs p ++ [n]) m ∈
      (scan_directory cfg root p false none).filesOf ∧
    (get_file_metadata (resolveSegs p ++ [n]) m).file_size = 0 ∧
    (get_file_metadata (resolveSegs p ++ [n]) m).modified_time = none ∧
    (get_file_metadata (resolveSegs p ++ [n]) m).error = some m.oserror := by
  obtain ⟨hfiles, hsucc⟩ := scan_files_eq cfg root p es false h hw
  simp only [Bool.false_eq_true, if_false] at hfiles
  refine ⟨hsucc, ?_, ?_, ?_, ?_⟩
  · rw [hfiles]
    refine collectExcel_mem_of cfg _ _ m w ?_ ?_
    · exact (mem_globFlat (resolveSegs p) es _).mpr ⟨n, _, hmem, rfl⟩
    · rw [baseName_append]
      exact hex
  · unfold get_file_metadata
    rw [hbad]
    simp
  · unfold get_file_metadata
    rw [hbad]
    simp
  · unfold get_file_metadata
    rw [hbad]
    simp

/-- C8 witness: the degraded entry for the concrete unreadable `bad.xlsx`. -/
theorem C8_metadata_failure_degrades_witness :
    lookupTree fsA (resolveSegs ["work"]) = some (FsTree.dir workEntries) ∧
    is_path_within_work_directory workCfg ["work"] = true ∧
    ("bad.xlsx", FsTree.file metaBad (some wbSmall)) ∈ workEntries ∧
    is_excel_file workCfg "bad.xlsx" = true ∧
    metaBad.readable = false ∧
    ((scan_directory workCfg fsA ["work"] false none).success = true ∧
     get_file_metadata (resolveSegs ["work"] ++ ["bad.xlsx"]) metaBad ∈
       (scan_directory workCfg fsA ["work"] false none).filesOf ∧
     (get_file_metadata (resolveSegs ["work"] ++ ["bad.xlsx"]) metaBad).file_size = 0 ∧
     (get_file_metadata (resolveSegs ["work"] ++ ["bad.xlsx"]) metaBad).modified_time = none ∧
     (get_file_metadata (resolveSegs ["work"] ++ ["bad.xlsx"]) metaBad).error =
       some metaBad.oserror) :=
  ⟨rfl, by decide, bad_mem_workEntries, by decide, rfl,
   C8_metadata_failure_degrades workCfg fsA ["work"] workEntries "bad.xlsx"
     metaBad (some wbSmall) rfl (by decide) bad_mem_workEntries (by decide) rfl⟩

end ExcelSearch
